import Mathlib

/-!
Shallow embedding of the gscholar library (src/scholar/scholar.rs):
a Google Scholar query-URL builder, an HTML result extractor, and the
client composing them.  External collaborators (the `url` crate's
parser/normalizer, the `reqwest` HTTP client, and `scraper`'s HTML
document parser) are modelled as explicit function parameters; the
code of the repository itself is translated definition by definition.
-/

namespace GScholar

/-- The error enum of the library (`enum Error`), with the same six
variants in the same order as the Rust source. -/
inductive Error where
  | ConnectionError (url : String)
  | ParseError
  | InvalidServiceError
  | RequiredFieldError
  | NotImplementedError
  | InvalidResponseError
deriving DecidableEq, Repr

/-- One extracted search record (`struct ScholarResult`). -/
structure ScholarResult where
  title : String
  author : String
  abs : String
  link : String
deriving DecidableEq, Repr

/-- The service selector enum (`enum Services`), a single variant. -/
inductive Services where
  | Scholar
deriving DecidableEq, Repr

/-- The search-parameter set (`struct ScholarArgs`).  Rust integer
fields (`u16`, `u8`, `u32`) are embedded as `Nat`; their decimal
`to_string` serialization agrees with `Nat` printing on every
representable value.  `str` fields become `String`. -/
structure ScholarArgs where
  query : String
  cite_id : Option String
  from_year : Option Nat
  to_year : Option Nat
  sort_by : Option Nat
  cluster_id : Option String
  lang : Option String
  lang_limit : Option String
  limit : Option Nat
  offset : Option Nat
  adult_filtering : Option Bool
  include_similar_results : Option Bool
  include_citations : Option Bool

/-- `get_base_url`: the endpoint for each service. -/
def get_base_url : Services → String
  | Services.Scholar => "https://scholar.google.com/scholar?"

/-- `ScholarArgs::get_service`: always `Services::Scholar`. -/
def ScholarArgs.get_service (_ : ScholarArgs) : Services :=
  Services.Scholar

/-- The query-string assembly of `ScholarArgs::get_url`: the sequence of
`push_str` calls after the empty-query check, in source order. -/
def ScholarArgs.body (a : ScholarArgs) : String :=
  "q=" ++ a.query
  ++ (match a.cite_id with
      | some i => "&cites=" ++ i
      | none => "")
  ++ (match a.from_year with
      | some i => "&as_ylo=" ++ toString i
      | none => "")
  ++ (match a.to_year with
      | some i => "&as_yhi=" ++ toString i
      | none => "")
  ++ (match a.sort_by with
      | some i => if i < 3 then "&scisbd=" ++ toString i else ""
      | none => "")
  ++ (match a.cluster_id with
      | some i => "&cluster=" ++ i
      | none => "")
  ++ (match a.lang with
      | some i => "&hl=" ++ i
      | none => "")
  ++ (match a.lang_limit with
      | some i => "&lr=" ++ i
      | none => "")
  ++ (match a.limit with
      | some i => "&num=" ++ toString i
      | none => "")
  ++ (match a.offset with
      | some i => "&start=" ++ toString i
      | none => "")
  ++ (match a.adult_filtering with
      | some b => "&safe=" ++ (if b then "active" else "off")
      | none => "")
  ++ (match a.include_similar_results with
      | some b => "&filter=" ++ (if b then "1" else "0")
      | none => "")
  ++ (match a.include_citations with
      | some b => "&as_vis=" ++ (if b then "1" else "0")
      | none => "")

/-- `ScholarArgs::get_url`.  The final `url::Url::parse(..).to_string()`
round-trip through the external `url` crate is modelled by the explicit
collaborator `parseUrl : String → Option String` (`some` = successful
parse, returning the normalized text; `none` = parse failure).  A parse
failure is mapped to `Error::ParseError`, exactly as on line 162 of the
source. -/
def ScholarArgs.get_url (parseUrl : String → Option String)
    (a : ScholarArgs) : Except Error String :=
  if a.query.isEmpty then Except.error Error.RequiredFieldError
  else
    match parseUrl (get_base_url a.get_service ++ a.body) with
    | some s => Except.ok s
    | none => Except.error Error.ParseError

/-!
The result extractor (`Client::scrape_serialize`).  The external
`scraper` collaborator provides: permissive document parsing (modelled
as a parameter `parseHtml : String → List Node` giving the roots of the
best-effort tree), CSS-selector compilation (the five selectors used in
the source are constant, valid selectors: a class selector or a tag
selector), descendant selection in document (preorder) order excluding
the scope node itself, attribute lookup, and subtree text
concatenation in document order.
-/

/-- A node of the parsed HTML tree: an element with a tag name, a class
list, an attribute list, and children, or a text node. -/
inductive Node where
  | element (tag : String) (classes : List String)
      (attrs : List (String × String)) (children : List Node)
  | text (s : String)
deriving Repr

mutual

/-- All nodes of a subtree in document (preorder) order, the root
included. -/
def Node.preorder : Node → List Node
  | Node.text s => [Node.text s]
  | Node.element t c a ch => Node.element t c a ch :: preorderList ch

/-- All nodes of a forest in document (preorder) order. -/
def preorderList : List Node → List Node
  | [] => []
  | n :: ns => n.preorder ++ preorderList ns

end

/-- The proper descendants of a node in document order (the traversal
of `ElementRef::select`, which skips the scope node itself). -/
def Node.descendants : Node → List Node
  | Node.text _ => []
  | Node.element _ _ _ ch => preorderList ch

/-- The two selector shapes the source compiles: a class selector
(".gs_ri", ".gs_rt", ".gs_rs", ".gs_a") or a tag selector ("a"). -/
inductive Sel where
  | byClass (c : String)
  | byTag (t : String)
deriving Repr

/-- Whether a selector matches a node. -/
def Sel.sat : Sel → Node → Bool
  | Sel.byClass c, Node.element _ cs _ _ => cs.contains c
  | Sel.byTag t, Node.element tg _ _ _ => tg == t
  | _, Node.text _ => false

/-- `.gs_ri`, the result-block selector. -/
def gsRi : Sel := Sel.byClass "gs_ri"

/-- `.gs_rt`, the title selector. -/
def gsRt : Sel := Sel.byClass "gs_rt"

/-- `.gs_rs`, the abstract-snippet selector. -/
def gsRs : Sel := Sel.byClass "gs_rs"

/-- `.gs_a`, the author-line selector. -/
def gsA : Sel := Sel.byClass "gs_a"

/-- `a`, the hyperlink selector. -/
def tagA : Sel := Sel.byTag "a"

/-- `ElementRef::select`: the descendants of a node matching a
selector, in document order. -/
def selectIn (s : Sel) (n : Node) : List Node :=
  n.descendants.filter (fun m => s.sat m)

/-- `Html::select` over the whole parsed document: all nodes of the
forest matching a selector, in document order. -/
def selectDoc (s : Sel) (roots : List Node) : List Node :=
  (preorderList roots).filter (fun m => s.sat m)

/-- `ElementRef::attr`: the value of an attribute of an element. -/
def Node.attr : Node → String → Option String
  | Node.text _, _ => none
  | Node.element _ _ attrs _, k => attrs.lookup k

/-- `ElementRef::text().collect::<String>()`: the concatenation of all
descendant text nodes in document order. -/
def Node.textContent (n : Node) : String :=
  String.join (n.preorder.filterMap fun m =>
    match m with
    | Node.text s => some s
    | Node.element _ _ _ _ => none)

/-- The per-block closure of `scrape_serialize`'s `filter_map`: the
four sub-selections in source order (title, first anchor and its
`href`, abstract, author); any failure yields `none` (the `?`
operator), success yields one record. -/
def processBlock (row : Node) : Option ScholarResult :=
  match (selectIn gsRt row).head? with
  | none => none
  | some title =>
    match (selectIn tagA row).head? with
    | none => none
    | some anchor =>
      match anchor.attr "href" with
      | none => none
      | some li =>
        match (selectIn gsRs row).head? with
        | none => none
        | some ab =>
          match (selectIn gsA row).head? with
          | none => none
          | some author =>
            some { title := title.textContent
                   author := author.textContent
                   abs := ab.textContent
                   link := li }

/-- `Client::scrape_serialize`: parse the document with the external
collaborator, select every `.gs_ri` block, process each block
independently (`chunks_exact(1)` + `filter_map`), and collect the
surviving records.  The five constant selectors always compile, so the
`ParseError` branches for selector compilation are dead and the result
is always `Ok`. -/
def scrape_serialize (parseHtml : String → List Node)
    (document : String) : Except Error (List ScholarResult) :=
  Except.ok ((selectDoc gsRi (parseHtml document)).filterMap processBlock)

/-- The outcome of the external HTTP collaborator (`reqwest`) on one
GET request: a send-level failure, a body-decoding failure, or a
decoded body. -/
inductive FetchOutcome where
  | sendErr
  | textErr
  | body (s : String)

/-- `Client::get_document`: a send failure maps to
`ConnectionError(url)`, a body-decoding failure to `ParseError`. -/
def get_document (http : String → FetchOutcome) (url : String) :
    Except Error String :=
  match http url with
  | FetchOutcome.sendErr => Except.error (Error.ConnectionError url)
  | FetchOutcome.textErr => Except.error Error.ParseError
  | FetchOutcome.body b => Except.ok b

/-- `Client::scrape_scholar`: build the URL, fetch the document,
extract; each `?` propagates the error unchanged. -/
def scrape_scholar (parseUrl : String → Option String)
    (http : String → FetchOutcome) (parseHtml : String → List Node)
    (args : ScholarArgs) : Except Error (List ScholarResult) :=
  match args.get_url parseUrl with
  | Except.error e => Except.error e
  | Except.ok url =>
    match get_document http url with
    | Except.error e => Except.error e
    | Except.ok doc => scrape_serialize parseHtml doc

/-! Concrete instances used by the claims. -/

/-- The fully-populated parameter set of §8 / the `build_url_all` test. -/
def allArgs : ScholarArgs :=
  { query := "abcd"
    cite_id := some "213123123123"
    from_year := some 2018
    to_year := some 2021
    sort_by := some 0
    cluster_id := some "3121312312"
    lang := some "en"
    lang_limit := some "lang_fr|lang_en"
    limit := some 10
    offset := some 5
    adult_filtering := some true
    include_similar_results := some true
    include_citations := some true }

/-- The URL the §8 test expects for `allArgs`. -/
def allArgsUrl : String :=
  "https://scholar.google.com/scholar?q=abcd&cites=213123123123&as_ylo=2018&as_yhi=2021&scisbd=0&cluster=3121312312&hl=en&lr=lang_fr|lang_en&num=10&start=5&safe=active&filter=1&as_vis=1"

/-- A parameter set with only the required query present. -/
def queryOnlyArgs (q : String) : ScholarArgs :=
  { query := q
    cite_id := none
    from_year := none
    to_year := none
    sort_by := none
    cluster_id := none
    lang := none
    lang_limit := none
    limit := none
    offset := none
    adult_filtering := none
    include_similar_results := none
    include_citations := none }

/-- A URL-parse collaborator that accepts every string unchanged (no
normalization needed). -/
def idParse : String → Option String := fun s => some s

/-- A URL-parse collaborator that rejects every string (strict parsing
fails). -/
def failParse : String → Option String := fun _ => none

set_option maxRecDepth 8192 in
/-- Claim C1: on the fully-populated §8 parameter set, provided the
external URL parser accepts the assembled string and returns it
unchanged (which the `url` crate does on this input), `get_url` returns
`Ok` of exactly the expected URL, with every optional field emitted as
`&key=value` in the fixed source order. -/
theorem get_url_all_fields (parseUrl : String → Option String)
    (h : parseUrl allArgsUrl = some allArgsUrl) :
    allArgs.get_url parseUrl = Except.ok allArgsUrl := by
  have hb : get_base_url allArgs.get_service ++ allArgs.body = allArgsUrl := by
    decide
  unfold ScholarArgs.get_url
  rw [hb, h]
  rfl

/-- Witness for C1 at the identity parser. -/
theorem get_url_all_fields_witness :
    allArgs.get_url idParse = Except.ok allArgsUrl :=
  get_url_all_fields idParse rfl

/-- Claim C4: whenever the query string is empty, `get_url` fails with
`RequiredFieldError`, whatever the optional fields and the parser. -/
theorem get_url_empty_query (parseUrl : String → Option String)
    (a : ScholarArgs) (h : a.query = "") :
    a.get_url parseUrl = Except.error Error.RequiredFieldError := by
  unfold ScholarArgs.get_url
  rw [h]
  rfl

/-- Witness for C4: an empty query with several optional fields set. -/
theorem get_url_empty_query_witness :
    ({ queryOnlyArgs "" with
        cite_id := some "42"
        sort_by := some 1
        adult_filtering := some false } : ScholarArgs).get_url idParse
      = Except.error Error.RequiredFieldError :=
  get_url_empty_query idParse _ rfl

/-- Claim C5: a `sort_by` value that is at least 3 (and representable
in `u8`) is silently dropped: the result is identical to the same
parameter set with `sort_by` absent, for every parser. -/
theorem get_url_sort_mode_dropped (parseUrl : String → Option String)
    (a : ScholarArgs) (i : Nat) (h3 : 3 ≤ i) (h256 : i < 256) :
    ({ a with sort_by := some i } : ScholarArgs).get_url parseUrl
      = ({ a with sort_by := none } : ScholarArgs).get_url parseUrl := by
  have hb : ({ a with sort_by := some i } : ScholarArgs).body
      = ({ a with sort_by := none } : ScholarArgs).body := by
    unfold ScholarArgs.body
    simp only []
    rw [if_neg (by omega)]
  unfold ScholarArgs.get_url
  rw [hb]

/-- Witness for C5 at `sort_by = 7`. -/
theorem get_url_sort_mode_dropped_witness :
    ({ queryOnlyArgs "abcd" with sort_by := some 7 } : ScholarArgs).get_url idParse
      = ({ queryOnlyArgs "abcd" with sort_by := none } : ScholarArgs).get_url idParse :=
  get_url_sort_mode_dropped idParse (queryOnlyArgs "abcd") 7
    (by decide) (by decide)

/-- Claim C6: with a non-empty query and every optional field absent,
provided the external URL parser accepts the assembled string
unchanged, `get_url` returns exactly
"https://scholar.google.com/scholar?q=" followed by the query. -/
theorem get_url_query_only (parseUrl : String → Option String)
    (q : String) (hq : q ≠ "")
    (h : parseUrl ("https://scholar.google.com/scholar?q=" ++ q)
      = some ("https://scholar.google.com/scholar?q=" ++ q)) :
    (queryOnlyArgs q).get_url parseUrl
      = Except.ok ("https://scholar.google.com/scholar?q=" ++ q) := by
  have hb : get_base_url (queryOnlyArgs q).get_service ++ (queryOnlyArgs q).body
      = "https://scholar.google.com/scholar?q=" ++ q := by
    show "https://scholar.google.com/scholar?" ++ ("q=" ++ q
      ++ "" ++ "" ++ "" ++ "" ++ "" ++ "" ++ "" ++ "" ++ "" ++ "" ++ "" ++ "")
      = "https://scholar.google.com/scholar?q=" ++ q
    simp only [String.append_empty]
    rw [← String.append_assoc]
    congr 1
  have hne : q.isEmpty = false := by
    cases hh : q.isEmpty
    · rfl
    · exact absurd ((String.isEmpty_iff q).mp hh) hq
  unfold ScholarArgs.get_url
  rw [hb, h]
  simp [hne]
  exact hne

/-- Witness for C6 at query "abcd". -/
theorem get_url_query_only_witness :
    (queryOnlyArgs "abcd").get_url idParse
      = Except.ok "https://scholar.google.com/scholar?q=abcd" :=
  get_url_query_only idParse "abcd" (by decide) rfl

/-- Counterexample for C3: when strict URL parsing fails, `get_url`
returns `ParseError` — not an error kind distinct from `ParseError` (the
`Error` enum has no `MalformedURL` variant at all). -/
theorem get_url_parse_failure_counterexample :
    (queryOnlyArgs "abcd").get_url failParse = Except.error Error.ParseError :=
  rfl

/-- Claim C3 (amended): for every parameter set with a non-empty query
whose assembled string the strict URL parser rejects, `get_url` fails
with `ParseError`. -/
theorem get_url_parse_failure (parseUrl : String → Option String)
    (a : ScholarArgs) (hq : a.query ≠ "")
    (h : parseUrl (get_base_url a.get_service ++ a.body) = none) :
    a.get_url parseUrl = Except.error Error.ParseError := by
  have hne : a.query.isEmpty = false := by
    cases hh : a.query.isEmpty
    · rfl
    · exact absurd ((String.isEmpty_iff a.query).mp hh) hq
  unfold ScholarArgs.get_url
  rw [h]
  simp [hne]

/-- Witness for the amended C3 at query "abcd" and the rejecting
parser. -/
theorem get_url_parse_failure_witness :
    (queryOnlyArgs "abcd").get_url failParse = Except.error Error.ParseError :=
  get_url_parse_failure failParse (queryOnlyArgs "abcd") (by decide) rfl

/-- Claim C2: the extractor processes each matched result block
independently (the output is the blockwise `filterMap` over the
selected blocks); a block where any of the four sub-selections fails
contributes nothing, and a block where all four succeed contributes
exactly one record built from the document-order text concatenations
and the first-anchor destination. -/
theorem scrape_block_policy (parseHtml : String → List Node) (txt : String) :
    scrape_serialize parseHtml txt
      = Except.ok ((selectDoc gsRi (parseHtml txt)).filterMap processBlock)
    ∧ (∀ row : Node,
        ((selectIn gsRt row).head? = none
          ∨ ((selectIn tagA row).head?.bind fun n => n.attr "href") = none
          ∨ (selectIn gsRs row).head? = none
          ∨ (selectIn gsA row).head? = none)
        → processBlock row = none)
    ∧ (∀ (row t anchor ab au : Node) (li : String),
        (selectIn gsRt row).head? = some t →
        (selectIn tagA row).head? = some anchor →
        anchor.attr "href" = some li →
        (selectIn gsRs row).head? = some ab →
        (selectIn gsA row).head? = some au →
        processBlock row = some
          { title := t.textContent
            author := au.textContent
            abs := ab.textContent
            link := li }) := by
  refine ⟨rfl, ?_, ?_⟩
  · intro row h
    cases h0 : (selectIn gsRt row).head? with
    | none => simp only [processBlock, h0]
    | some t =>
      cases h1 : (selectIn tagA row).head? with
      | none => simp only [processBlock, h0, h1]
      | some anchor =>
        cases h2 : anchor.attr "href" with
        | none => simp only [processBlock, h0, h1, h2]
        | some li =>
          cases h3 : (selectIn gsRs row).head? with
          | none => simp only [processBlock, h0, h1, h2, h3]
          | some ab =>
            cases h4 : (selectIn gsA row).head? with
            | none => simp only [processBlock, h0, h1, h2, h3, h4]
            | some au => simp_all
  · intro row t anchor ab au li h1 h2 h3 h4 h5
    simp only [processBlock, h1, h2, h3, h4, h5]

/-- `docGood`: a result block in which all four sub-selections
succeed. -/
def docGood : Node :=
  Node.element "div" ["gs_ri"] []
    [ Node.element "h3" ["gs_rt"] []
        [Node.text "Ti", Node.element "span" [] [] [Node.text "tle"]]
    , Node.element "a" [] [("href", "http://x")] [Node.text "link"]
    , Node.element "div" ["gs_rs"] [] [Node.text "Abs"]
    , Node.element "div" ["gs_a"] [] [Node.text "Auth"] ]

/-- `docBad`: a result block with no abstract-snippet element. -/
def docBad : Node :=
  Node.element "div" ["gs_ri"] []
    [ Node.element "h3" ["gs_rt"] [] [Node.text "T2"]
    , Node.element "a" [] [("href", "http://y")] []
    , Node.element "div" ["gs_a"] [] [Node.text "A2"] ]

/-- An HTML-parse collaborator returning one incomplete and one
complete result block. -/
def mixedParse : String → List Node := fun _ => [docBad, docGood]

/-- Witness for C2: the incomplete block is skipped, the complete one
survives, and the whole scrape keeps only the complete one. -/
theorem scrape_block_policy_witness :
    processBlock docBad = none
    ∧ processBlock docGood
        = some { title := "Title", author := "Auth", abs := "Abs", link := "http://x" }
    ∧ scrape_serialize mixedParse "page"
        = Except.ok [{ title := "Title", author := "Auth", abs := "Abs", link := "http://x" }] :=
  ⟨(scrape_block_policy mixedParse "page").2.1 docBad
      (Or.inr (Or.inr (Or.inl rfl))),
    (scrape_block_policy mixedParse "page").2.2 docGood
      (Node.element "h3" ["gs_rt"] []
        [Node.text "Ti", Node.element "span" [] [] [Node.text "tle"]])
      (Node.element "a" [] [("href", "http://x")] [Node.text "link"])
      (Node.element "div" ["gs_rs"] [] [Node.text "Abs"])
      (Node.element "div" ["gs_a"] [] [Node.text "Auth"])
      "http://x" rfl rfl rfl rfl rfl,
    rfl⟩

/-- Claim C7: the extractor returns the surviving records in document
order (the selected blocks are a sublist of the document-order
traversal, and the output is their order-preserving `filterMap`), and
returns `Ok []`, not an error, when no block matches or every block is
incomplete. -/
theorem scrape_order_and_empty (parseHtml : String → List Node) (txt : String) :
    scrape_serialize parseHtml txt
      = Except.ok ((selectDoc gsRi (parseHtml txt)).filterMap processBlock)
    ∧ List.Sublist (selectDoc gsRi (parseHtml txt)) (preorderList (parseHtml txt))
    ∧ (selectDoc gsRi (parseHtml txt) = []
        → scrape_serialize parseHtml txt = Except.ok [])
    ∧ ((∀ b ∈ selectDoc gsRi (parseHtml txt), processBlock b = none)
        → scrape_serialize parseHtml txt = Except.ok []) := by
  refine ⟨rfl, List.filter_sublist _, ?_, ?_⟩
  · intro h
    unfold scrape_serialize
    rw [h]
    rfl
  · intro h
    unfold scrape_serialize
    rw [List.filterMap_eq_nil_iff.mpr h]

/-- Witness for C7: a document with no result block yields `Ok []`. -/
theorem scrape_order_and_empty_witness :
    scrape_serialize (fun _ => ([] : List Node)) "" = Except.ok [] :=
  (scrape_order_and_empty (fun _ => ([] : List Node)) "").2.2.1 rfl

/-- Claim C9: extraction is deterministic — two invocations of the
extractor on the same HTML text yield the same result sequence (same
length, same records in the same positions). -/
theorem scrape_deterministic (parseHtml : String → List Node) (txt : String)
    (r1 r2 : List ScholarResult)
    (h1 : scrape_serialize parseHtml txt = Except.ok r1)
    (h2 : scrape_serialize parseHtml txt = Except.ok r2) :
    r1.length = r2.length ∧ r1 = r2 := by
  have h : r1 = r2 := Except.ok.inj (h1.symm.trans h2)
  exact ⟨by rw [h], h⟩

/-- Witness for C9 at a one-block document. -/
theorem scrape_deterministic_witness :
    ([{ title := "Title", author := "Auth", abs := "Abs", link := "http://x" }] :
        List ScholarResult).length
      = ([{ title := "Title", author := "Auth", abs := "Abs", link := "http://x" }] :
        List ScholarResult).length
    ∧ ([{ title := "Title", author := "Auth", abs := "Abs", link := "http://x" }] :
        List ScholarResult)
      = [{ title := "Title", author := "Auth", abs := "Abs", link := "http://x" }] :=
  scrape_deterministic mixedParse "page" _ _ rfl rfl

/-- Claim C10: when the first anchor of a block (in document order)
has no `href` attribute, the block is excluded — the extractor never
falls back to a later anchor. -/
theorem first_anchor_no_href_skips (row anchor : Node)
    (h1 : (selectIn tagA row).head? = some anchor)
    (h2 : anchor.attr "href" = none) :
    processBlock row = none := by
  cases h0 : (selectIn gsRt row).head? with
  | none => simp only [processBlock, h0]
  | some t => simp only [processBlock, h0, h1, h2]

/-- A block whose first anchor has no `href` while its second anchor
does. -/
def twoAnchorRow : Node :=
  Node.element "div" ["gs_ri"] []
    [ Node.element "h3" ["gs_rt"] [] [Node.text "T"]
    , Node.element "a" [] [] [Node.text "x"]
    , Node.element "a" [] [("href", "http://b")] [Node.text "y"]
    , Node.element "div" ["gs_rs"] [] [Node.text "A"]
    , Node.element "div" ["gs_a"] [] [Node.text "U"] ]

/-- Witness for C10: in `twoAnchorRow` the first anchor has no `href`,
a later anchor does, and the block is still dropped. -/
theorem first_anchor_no_href_skips_witness :
    (selectIn tagA twoAnchorRow).head? = some (Node.element "a" [] [] [Node.text "x"])
    ∧ ((selectIn tagA twoAnchorRow)[1]?.bind fun n => n.attr "href") = some "http://b"
    ∧ processBlock twoAnchorRow = none :=
  ⟨rfl, rfl,
    first_anchor_no_href_skips twoAnchorRow
      (Node.element "a" [] [] [Node.text "x"]) rfl rfl⟩

/-- Claim C8: `scrape_scholar` propagates a `get_url` failure
unchanged; a transport-level failure of the GET yields
`ConnectionError` carrying the built URL; a body-decoding failure
yields `ParseError`; otherwise the extractor's result is returned
verbatim. -/
theorem scrape_scholar_propagation (parseUrl : String → Option String)
    (http : String → FetchOutcome) (parseHtml : String → List Node)
    (args : ScholarArgs) :
    (∀ e, args.get_url parseUrl = Except.error e →
      scrape_scholar parseUrl http parseHtml args = Except.error e)
    ∧ (∀ url, args.get_url parseUrl = Except.ok url →
        (http url = FetchOutcome.sendErr →
          scrape_scholar parseUrl http parseHtml args
            = Except.error (Error.ConnectionError url))
        ∧ (http url = FetchOutcome.textErr →
          scrape_scholar parseUrl http parseHtml args
            = Except.error Error.ParseError)
        ∧ (∀ b, http url = FetchOutcome.body b →
          scrape_scholar parseUrl http parseHtml args
            = scrape_serialize parseHtml b)) := by
  constructor
  · intro e h
    simp only [scrape_scholar, h]
  · intro url h
    refine ⟨?_, ?_, ?_⟩
    · intro hh
      simp only [scrape_scholar, h, get_document, hh]
    · intro hh
      simp only [scrape_scholar, h, get_document, hh]
    · intro b hb
      simp only [scrape_scholar, h, get_document, hb]

/-- An HTTP collaborator whose send always fails. -/
def sendFailHttp : String → FetchOutcome := fun _ => FetchOutcome.sendErr

/-- An HTTP collaborator whose body decoding always fails. -/
def textFailHttp : String → FetchOutcome := fun _ => FetchOutcome.textErr

/-- An HTTP collaborator always returning an empty body. -/
def emptyBodyHttp : String → FetchOutcome := fun _ => FetchOutcome.body ""

/-- An HTML-parse collaborator returning an empty tree. -/
def emptyHtml : String → List Node := fun _ => []

/-- Witness for C8: the four propagation cases at concrete
collaborators and parameter sets. -/
theorem scrape_scholar_propagation_witness :
    scrape_scholar idParse sendFailHttp emptyHtml (queryOnlyArgs "")
      = Except.error Error.RequiredFieldError
    ∧ scrape_scholar idParse sendFailHttp emptyHtml (queryOnlyArgs "abcd")
      = Except.error (Error.ConnectionError "https://scholar.google.com/scholar?q=abcd")
    ∧ scrape_scholar idParse textFailHttp emptyHtml (queryOnlyArgs "abcd")
      = Except.error Error.ParseError
    ∧ scrape_scholar idParse emptyBodyHttp emptyHtml (queryOnlyArgs "abcd")
      = Except.ok [] :=
  ⟨(scrape_scholar_propagation idParse sendFailHttp emptyHtml
      (queryOnlyArgs "")).1 Error.RequiredFieldError rfl,
    ((scrape_scholar_propagation idParse sendFailHttp emptyHtml
      (queryOnlyArgs "abcd")).2 "https://scholar.google.com/scholar?q=abcd" rfl).1 rfl,
    ((scrape_scholar_propagation idParse textFailHttp emptyHtml
      (queryOnlyArgs "abcd")).2 "https://scholar.google.com/scholar?q=abcd" rfl).2.1 rfl,
    (((scrape_scholar_propagation idParse emptyBodyHttp emptyHtml
      (queryOnlyArgs "abcd")).2 "https://scholar.google.com/scholar?q=abcd" rfl).2.2 "" rfl).trans rfl⟩

end GScholar
